import Mathlib

/-!
Verification of the splunkbase app downloader against its specification.

The development shallowly embeds the two Python modules:
  * `config_manager.py` (class `ConfigurationManager`): layered configuration
    resolution over CLI arguments, YAML/INI files, environment variables,
    caller kwargs and defaults;
  * `app_downloader.py` (class `SplunkbaseDownloader`): authentication,
    latest-version lookup, package download and ledger reconciliation.

Python dynamic values are modelled by `PyVal`; Python dicts by association
lists (insertion order preserved, assignment updates in place, as CPython
dicts do).  The filesystem is a map from path to parsed file content, plus a
set of directories.  The network is a pair of abstract endpoint functions
from URL to an optional response, `none` standing for a transport exception.
-/

namespace SplunkbaseDL

/-- A Python runtime value, as far as this program manipulates them:
`None`, strings, integers and string-keyed dicts. -/
inductive PyVal where
  | vnone : PyVal
  | vstr : String → PyVal
  | vint : Int → PyVal
  | vdict : List (String × PyVal) → PyVal

/-- Python `==` on `PyVal` (structural; the program only ever compares
strings, integers and `None` with each other). -/
def pyBeq : PyVal → PyVal → Bool
  | .vnone, .vnone => true
  | .vstr a, .vstr b => a == b
  | .vint a, .vint b => a == b
  | .vdict a, .vdict b => goList a b
  | _, _ => false
where goList : List (String × PyVal) → List (String × PyVal) → Bool
  | [], [] => true
  | (k, v) :: xs, (l, w) :: ys => k == l && pyBeq v w && goList xs ys
  | _, _ => false

/-- Python truthiness: `None`, `""`, `0` and `{}` are falsy. -/
def pyTruthy : PyVal → Bool
  | .vnone => false
  | .vstr s => !(s == "")
  | .vint n => !(n == 0)
  | .vdict d => !d.isEmpty

/-- Python `repr` of a value (dicts render their entries in order). -/
def pyRepr : PyVal → String
  | .vnone => "None"
  | .vstr s => "\x27" ++ s ++ "\x27"
  | .vint n => toString n
  | .vdict d => "\x7b" ++ goEntries d ++ "\x7d"
where goEntries : List (String × PyVal) → String
  | [] => ""
  | [(k, v)] => "\x27" ++ k ++ "\x27: " ++ pyRepr v
  | (k, v) :: rest => "\x27" ++ k ++ "\x27: " ++ pyRepr v ++ ", " ++ goEntries rest

/-- Python `str` of a value (as used by f-string interpolation). -/
def pyStr : PyVal → String
  | .vstr s => s
  | v => pyRepr v

/-- Python `d.get(k)`: the stored value, `None` when the key is absent. -/
def pyGet (d : List (String × PyVal)) (k : String) : PyVal :=
  match d.lookup k with
  | some v => v
  | none => .vnone

/-- Python `d[k] = v` on an insertion-ordered dict: an existing key keeps its
position and is overwritten, a new key is appended at the end. -/
def assocSet {α : Type} (l : List (String × α)) (k : String) (v : α) :
    List (String × α) :=
  match l with
  | [] => [(k, v)]
  | (k', v') :: rest =>
    if k' == k then (k, v) :: rest else (k', v') :: assocSet rest k v

theorem assocSet_lookup_self {α : Type} (l : List (String × α)) (k : String) (v : α) :
    (assocSet l k v).lookup k = some v := by
  induction l with
  | nil => simp [assocSet, List.lookup]
  | cons hd tl ih =>
    obtain ⟨k', v'⟩ := hd
    by_cases h : k' = k
    · simp [assocSet, h, List.lookup]
    · simp [assocSet, beq_eq_false_iff_ne.mpr h, List.lookup,
        beq_eq_false_iff_ne.mpr (Ne.symm h), ih]

theorem assocSet_lookup_other {α : Type} (l : List (String × α)) (k k' : String) (v : α)
    (h : k' ≠ k) : (assocSet l k v).lookup k' = l.lookup k' := by
  induction l with
  | nil => simp [assocSet, List.lookup, beq_eq_false_iff_ne.mpr h]
  | cons hd tl ih =>
    obtain ⟨a, b⟩ := hd
    by_cases ha : a = k
    · subst ha
      simp [assocSet, List.lookup, beq_eq_false_iff_ne.mpr h]
    · by_cases hb : k' = a
      · subst hb
        simp [assocSet, beq_eq_false_iff_ne.mpr ha, List.lookup]
      · simp [assocSet, beq_eq_false_iff_ne.mpr ha, List.lookup,
          beq_eq_false_iff_ne.mpr hb, ih]

/-! ## Configuration manager (`config_manager.py`) -/

/-- Mutable state of a `ConfigurationManager` instance: the dicts loaded from
a YAML or INI configuration file, the constructor `kwargs`, and the effective
configuration `config_data` that `set_config` populates. -/
structure ConfigurationManager where
  yaml_data : List (String × PyVal)
  ini_data : List (String × PyVal)
  kwargs : List (String × PyVal)
  config_data : List (String × PyVal)

/-- A freshly constructed manager (all dicts empty except the kwargs). -/
def ConfigurationManager.init (kw : List (String × PyVal)) : ConfigurationManager :=
  { yaml_data := [], ini_data := [], kwargs := kw, config_data := [] }

/-- Python `str.upper` (character-wise, as for the ASCII keys this program
uses). -/
def strUpper (s : String) : String :=
  String.mk (s.data.map Char.toUpper)

/-- Python `str.endswith`, over the character list. -/
def strEndsWith (s suffix : String) : Bool :=
  List.isSuffixOf suffix.data s.data

/-- `key.replace('.', '-')` from `set_config` (a single-character pattern,
so a character-wise map). -/
def dotToHyphen (key : String) : String :=
  String.mk (key.data.map fun c => if c == '.' then '-' else c)

/-- The environment-variable name used by `set_config`:
`env_key or key.upper()` (an empty-string `env_key` is falsy in Python). -/
def envName (env_key : Option String) (key : String) : String :=
  match env_key with
  | some e => if e == "" then strUpper key else e
  | none => strUpper key

/-- `os.getenv(env_key or key.upper())` as a `PyVal` operand of the
`or`-chain (`None` when the variable is unset). -/
def envLookup (env : String → Option String) (env_key : Option String) (key : String) :
    PyVal :=
  match env (envName env_key key) with
  | some s => .vstr s
  | none => .vnone

/-- `d.get(section, {}).get(key) if section else d.get(key)`.  Looking up a
key inside a section whose stored value is not a dict raises an
`AttributeError` in Python, modelled by the `.error` result. -/
def fileGet (d : List (String × PyVal)) (sect : Option String) (key : String) :
    Except Unit PyVal :=
  match sect with
  | some s =>
    match d.lookup s with
    | none => .ok (pyGet [] key)
    | some (.vdict m) => .ok (pyGet m key)
    | some _ => .error ()
  | none => .ok (pyGet d key)

/-- Python's short-circuiting `or`: the right operand is evaluated only when
the left one is falsy (so a lookup that would raise on the right is never
reached when the left already produced a truthy value). -/
def exceptOr (a : Except Unit PyVal) (b : Unit → Except Unit PyVal) :
    Except Unit PyVal :=
  match a with
  | .error e => .error e
  | .ok v => if pyTruthy v then .ok v else b ()

/-- The `or`-chain of `set_config`, in source order: CLI args, YAML file,
INI file, environment, constructor kwargs, and finally the `default`
argument (returned even when falsy, as Python's `or` does). -/
def resolveValue (cm : ConfigurationManager) (args : String → PyVal)
    (env : String → Option String) (key : String) (sect : Option String)
    (env_key : Option String) (default : PyVal) : Except Unit PyVal :=
  exceptOr (.ok (args (dotToHyphen key))) fun _ =>
  exceptOr (fileGet cm.yaml_data sect key) fun _ =>
  exceptOr (fileGet cm.ini_data sect key) fun _ =>
  exceptOr (.ok (envLookup env env_key key)) fun _ =>
  exceptOr (fileGet cm.kwargs sect key) fun _ =>
  .ok default

/-- Exceptions escaping `set_config`: the `ConfigurationManagerError` raised
on a choices violation (carrying the offending value, the key and the choice
set, as the source's message does), or a Python runtime error
(`AttributeError`/`TypeError`) from a non-dict where a dict is expected. -/
inductive ConfigurationManagerError where
  | invalidValue (value : PyVal) (key : String) (choices : List PyVal)
  | pyError

/-- `self.config_data.setdefault(section, {}); self.config_data[section][key] = value`
(or `self.config_data[key] = value` without a section).  `none` models the
`TypeError` raised when an existing `config_data[section]` is not a dict. -/
def recordConfig (cd : List (String × PyVal)) (sect : Option String)
    (key : String) (v : PyVal) : Option (List (String × PyVal)) :=
  match sect with
  | none => some (assocSet cd key v)
  | some s =>
    match cd.lookup s with
    | none => some (assocSet cd s (.vdict [(key, v)]))
    | some (.vdict m) => some (assocSet cd s (.vdict (assocSet m key v)))
    | some _ => none

/-- Reading back the effective configuration at `[section][key]`
(or `[key]` when no section). -/
def effLookup (cd : List (String × PyVal)) (sect : Option String)
    (key : String) : Option PyVal :=
  match sect with
  | none => cd.lookup key
  | some s =>
    match cd.lookup s with
    | some (.vdict m) => m.lookup key
    | _ => none

/-- `ConfigurationManager.set_config`.  `args` models
`vars(self.parser.parse_args())` keyed by the hyphenated key;
`valid_choices` models `getattr(arg_def, 'choices', None)`.  On success the
resolved value is recorded into `config_data` and returned. -/
def set_config (cm : ConfigurationManager) (args : String → PyVal)
    (env : String → Option String) (valid_choices : Option (List PyVal))
    (key : String) (sect : Option String) (env_key : Option String)
    (default : PyVal) :
    Except ConfigurationManagerError (PyVal × ConfigurationManager) :=
  match resolveValue cm args env key sect env_key default with
  | .error _ => .error .pyError
  | .ok value =>
    let record : Except ConfigurationManagerError (PyVal × ConfigurationManager) :=
      match recordConfig cm.config_data sect key value with
      | none => .error .pyError
      | some cd => .ok (value, { cm with config_data := cd })
    match valid_choices with
    | some cs =>
      if cs.any (fun c => pyBeq value c) then record
      else .error (.invalidValue value key cs)
    | none => record

/-- Spec-side resolver: the first truthy ("non-empty") value of an explicit
source list, falling back to the final literal when every source is falsy.
Written from the specification's precedence wording, to be compared with the
source's `or`-chain. -/
def firstTruthy (sources : List PyVal) (fallback : PyVal) : PyVal :=
  match sources.find? pyTruthy with
  | some v => v
  | none => fallback

/-- The five lookup results of `set_config`'s sources, in precedence order
(the final `default` literal is kept separate as the fallback). -/
def sourceValues (args : String → PyVal) (env : String → Option String)
    (key : String) (env_key : Option String) (y i kw : PyVal) : List PyVal :=
  [args (dotToHyphen key), y, i, envLookup env env_key key, kw]

theorem resolveValue_eq_firstTruthy (cm : ConfigurationManager)
    (args : String → PyVal) (env : String → Option String) (key : String)
    (sect : Option String) (env_key : Option String) (default y i kw : PyVal)
    (hy : fileGet cm.yaml_data sect key = .ok y)
    (hi : fileGet cm.ini_data sect key = .ok i)
    (hk : fileGet cm.kwargs sect key = .ok kw) :
    resolveValue cm args env key sect env_key default =
      .ok (firstTruthy (sourceValues args env key env_key y i kw) default) := by
  unfold resolveValue sourceValues firstTruthy
  rw [hy, hi, hk]
  by_cases h1 : pyTruthy (args (dotToHyphen key)) <;>
    by_cases h2 : pyTruthy y <;>
      by_cases h3 : pyTruthy i <;>
        by_cases h4 : pyTruthy (envLookup env env_key key) <;>
          by_cases h5 : pyTruthy kw <;>
            simp [exceptOr, h1, h2, h3, h4, h5, List.find?]

/-! ## Filesystem and network model -/

/-- A ledger entry, i.e. one JSON object of the apps file
(`name`/`uid`/`version`/`updated_time` plus anything else it carries). -/
abbrev AppEntry := List (String × PyVal)

/-- Parsed content of a file on disk.  `json` carries the indentation the
file was serialized with; `malformed` is text that is not valid JSON;
`blob` is raw bytes (a downloaded archive); the two config variants hold a
parsed YAML mapping and parsed INI sections (configparser values are
strings). -/
inductive FileData where
  | json (entries : List AppEntry) (indent : Option Nat)
  | malformed (raw : String)
  | blob (content : String)
  | yamlFile (doc : List (String × PyVal))
  | iniFile (sections : List (String × List (String × String)))

/-- Filesystem state: files by path, plus the set of existing directories. -/
structure FS where
  files : List (String × FileData)
  dirs : List String

/-- `os.path.exists`: true for a file or a directory at that path. -/
def pathExists (fs : FS) (p : String) : Bool :=
  (fs.files.lookup p).isSome || fs.dirs.contains p

/-- `os.makedirs(p)`. -/
def makedirs (fs : FS) (p : String) : FS :=
  { fs with dirs := p :: fs.dirs }

/-- Writing (creating or overwriting) a file. -/
def fsWrite (fs : FS) (p : String) (d : FileData) : FS :=
  { fs with files := assocSet fs.files p d }

/-- `json.load(open(p))` on the apps file: the parsed entry list, or `none`
when the file is missing (`FileNotFoundError`) or not valid JSON
(`json.JSONDecodeError`). -/
def fsReadLedger (fs : FS) (p : String) : Option (List AppEntry) :=
  match fs.files.lookup p with
  | some (.json es _) => some es
  | _ => none

/-- `os.path.join(output, file_name)` for the relative file names this
program builds. -/
def pathJoin (a b : String) : String :=
  if a == "" then b
  else if strEndsWith a "/" then a ++ b
  else a ++ "/" ++ b

/-- Response of the version-listing endpoint: HTTP status and the parsed
JSON array body. -/
structure VerResponse where
  status : Nat
  body : List PyVal

/-- Response of the download endpoint: HTTP status, raw body bytes, and the
optional `Last-Modified` header. -/
structure DlResponse where
  status : Nat
  content : String
  lastModified : Option String

/-- Response of the login endpoint: HTTP status and the session cookies of
the response (`response.cookies.get_dict()`). -/
structure LoginResponse where
  status : Nat
  cookies : List (String × String)

/-- The remote service, as two abstract endpoint functions from full URL to
an optional response; `none` models a transport exception raised by
`requests`. -/
structure Net where
  getVersion : String → Option VerResponse
  getDownload : String → Option DlResponse

/-- `self.cookies`: `None` before authentication, the captured cookie dict
after. -/
abbrev Cookies := Option (List (String × String))

/-- `if not self.cookies`-truthiness: a `None` or empty cookie dict counts
as unauthenticated. -/
def cookiesTruthy : Cookies → Bool
  | none => false
  | some l => !l.isEmpty

/-! ## Splunkbase downloader (`app_downloader.py`) -/

def BASE_URL : String := "https://splunkbase.splunk.com"

/-- `VERSION_API.format(uid=uid)` (f-string interpolation applies `str`). -/
def versionUrl (uid : PyVal) : String :=
  BASE_URL ++ "/api/v1/app/" ++ pyStr uid ++ "/release/"

/-- `DOWNLOAD_API.format(app_id=app_id, version=version)`. -/
def downloadUrl (app_id app_version : PyVal) : String :=
  "https://api.splunkbase.splunk.com/api/v2/apps/" ++ pyStr app_id ++
    "/releases/" ++ pyStr app_version ++ "/download/?origin=sb&lead=false"

def LOGIN_API : String := BASE_URL ++ "/api/account:login/"

/-- `SplunkbaseDownloader.authenticate`: on HTTP 200 the response cookies
become the session state; any other status (or a transport exception,
`resp = none`) raises. -/
def authenticate (resp : Option LoginResponse) :
    Except String (List (String × String)) :=
  match resp with
  | none => .error "Authentication error"
  | some r =>
    if r.status == 200 then .ok r.cookies
    else .error ("Authentication failed with status code: " ++ toString r.status)

/-- `SplunkbaseDownloader.get_latest_version`: `None` when unauthenticated;
otherwise query the version endpoint and return `data[0]['name']`; every
failure (transport, non-200 status, empty array, missing field) yields
`None` via the surrounding `except`. -/
def get_latest_version (cookies : Cookies) (net : Net) (uid : PyVal) : PyVal :=
  if cookiesTruthy cookies = false then .vnone
  else
    match net.getVersion (versionUrl uid) with
    | none => .vnone
    | some r =>
      if r.status == 200 then
        match r.body with
        | [] => .vnone
        | first :: _ =>
          match first with
          | .vdict d =>
            match d.lookup "name" with
            | some v => v
            | none => .vnone
          | _ => .vnone
      else .vnone

/-- The target artifact name `f"{app_name}_{app_id}_{app_version}.tgz"`. -/
def tgzName (app_name app_id app_version : PyVal) : String :=
  pyStr app_name ++ "_" ++ pyStr app_id ++ "_" ++ pyStr app_version ++ ".tgz"

/-- `SplunkbaseDownloader.download_app`: `None` when unauthenticated; ensure
the output directory, skip (returning `None`) when the target file already
exists; otherwise fetch and, on HTTP 200, write the body and return the
`Last-Modified` header or the current UTC time (`now`). -/
def download_app (cookies : Cookies) (net : Net) (now : String)
    (output : String) (fs : FS) (app_name app_id app_version : PyVal) :
    Option String × FS :=
  if cookiesTruthy cookies = false then (none, fs)
  else
    let file_name := tgzName app_name app_id app_version
    let fs1 := if pathExists fs output then fs else makedirs fs output
    let path := pathJoin output file_name
    if pathExists fs1 path then (none, fs1)
    else
      match net.getDownload (downloadUrl app_id app_version) with
      | none => (none, fs1)
      | some r =>
        if r.status == 200 then
          let fs2 := fsWrite fs1 path (.blob r.content)
          let updated_time :=
            match r.lastModified with
            | some t => if t == "" then now else t
            | none => now
          (some updated_time, fs2)
        else (none, fs1)

/-- The in-place field update performed on the matching ledger entry:
`app['version'] = new_version; app['updated_time'] = updated_time`. -/
def updEntry (e : AppEntry) (new_version : PyVal) (updated_time : String) :
    AppEntry :=
  assocSet (assocSet e "version" new_version) "updated_time" (.vstr updated_time)

/-- The scan of `update_apps_file`: find the first entry whose `uid` equals
the given one and update it in place.  `.error` models the `KeyError` raised
by `app['uid']` on an entry without a `uid` field; `.ok none` means no entry
matched. -/
def findAndUpdate (uid new_version : PyVal) (updated_time : String) :
    List AppEntry → Except Unit (Option (List AppEntry))
  | [] => .ok none
  | e :: rest =>
    match e.lookup "uid" with
    | none => .error ()
    | some w =>
      if pyBeq w uid then .ok (some (updEntry e new_version updated_time :: rest))
      else
        match findAndUpdate uid new_version updated_time rest with
        | .error x => .error x
        | .ok none => .ok none
        | .ok (some es) => .ok (some (e :: es))

/-- `SplunkbaseDownloader.update_apps_file`: read the ledger, update the
first matching entry, rewrite the file with `indent=4` and return `True`;
return `False` (without writing) when the read fails, an entry lacks `uid`,
or no entry matches. -/
def update_apps_file (fs : FS) (apps_file : String) (uid new_version : PyVal)
    (updated_time : String) : Bool × FS :=
  match fsReadLedger fs apps_file with
  | none => (false, fs)
  | some entries =>
    match findAndUpdate uid new_version updated_time entries with
    | .error _ => (false, fs)
    | .ok none => (false, fs)
    | .ok (some es) => (true, fsWrite fs apps_file (.json es (some 4)))

/-- The label `f"{name}_{uid}_{version}"` appended to the result lists. -/
def appLabel (name uid version : PyVal) : String :=
  pyStr name ++ "_" ++ pyStr uid ++ "_" ++ pyStr version

/-- The per-entry loop body of `check_and_update_apps`, iterated over the
ledger entries in file order, threading the filesystem. -/
def processApps (cookies : Cookies) (net : Net) (now : String)
    (output apps_file : String) :
    List AppEntry → FS → List String × List String × FS
  | [], fs => ([], [], fs)
  | app :: rest, fs =>
    let name := pyGet app "name"
    let uid := pyGet app "uid"
    let current_version := pyGet app "version"
    let latest_version := get_latest_version cookies net uid
    if pyTruthy latest_version = false then
      let (ds, ss, fs') := processApps cookies net now output apps_file rest fs
      (ds, appLabel name uid current_version :: ss, fs')
    else if pyBeq latest_version current_version = false then
      match download_app cookies net now output fs name uid latest_version with
      | (some t, fs1) =>
        let (_, fs2) := update_apps_file fs1 apps_file uid latest_version t
        let (ds, ss, fs') := processApps cookies net now output apps_file rest fs2
        (appLabel name uid latest_version :: ds, ss, fs')
      | (none, fs1) =>
        let (ds, ss, fs') := processApps cookies net now output apps_file rest fs1
        (ds, appLabel name uid latest_version :: ss, fs')
    else
      let (ds, ss, fs') := processApps cookies net now output apps_file rest fs
      (ds, appLabel name uid current_version :: ss, fs')

/-- `SplunkbaseDownloader.check_and_update_apps`: two empty lists when
unauthenticated or when the ledger cannot be read; otherwise process every
entry in order and return the accumulated (downloaded, skipped) lists. -/
def check_and_update_apps (cookies : Cookies) (net : Net) (now : String)
    (output apps_file : String) (fs : FS) :
    (List String × List String) × FS :=
  if cookiesTruthy cookies = false then (([], []), fs)
  else
    match fsReadLedger fs apps_file with
    | none => (([], []), fs)
    | some entries =>
      let (ds, ss, fs') := processApps cookies net now output apps_file entries fs
      ((ds, ss), fs')

/-! ## Configuration file loading -/

/-- `_load_ini_config`: configparser sections as the dict-of-dicts shape
`set_config` later indexes (all INI values are strings). -/
def iniToPy (sections : List (String × List (String × String))) :
    List (String × PyVal) :=
  sections.map fun p => (p.1, .vdict (p.2.map fun q => (q.1, .vstr q.2)))

/-- `ConfigurationManager.load_config_file`, returning the updated manager
together with the list of printed warnings.  A falsy path is a no-op.  For a
`.conf`/`.ini` path, `configparser.read` silently ignores a missing file, so
`ini_data` becomes the (empty) section dict with no warning.  For a
`.yaml`/`.yml` path, a missing file raises `FileNotFoundError`, which the
source catches and turns into the "not found" warning.  (A config path
holding a non-config file is outside the modelled domain.) -/
def load_config_file (cm : ConfigurationManager) (fs : FS)
    (config_path : Option String) : ConfigurationManager × List String :=
  match config_path with
  | none => (cm, [])
  | some p =>
    if p == "" then (cm, [])
    else if strEndsWith p ".conf" || strEndsWith p ".ini" then
      match fs.files.lookup p with
      | some (.iniFile sections) => ({ cm with ini_data := iniToPy sections }, [])
      | _ => ({ cm with ini_data := [] }, [])
    else if strEndsWith p ".yaml" || strEndsWith p ".yml" then
      match fs.files.lookup p with
      | some (.yamlFile doc) => ({ cm with yaml_data := doc }, [])
      | _ =>
        (cm, ["Configuration file " ++ p ++ " not found. Continuing without it."])
    else (cm, [])

/-! ## Spec-side description of the reconciliation loop

The specification describes `reconcile` as a per-entry dispatch over the
ledger.  `claimStep`/`claimRun` are written from the specification's words
(using the modelled operations as the oracles the spec names) and are proved
to coincide with the source's loop. -/

/-- The outcome the specification assigns to one ledger entry. -/
inductive Outcome where
  | downloadedApp (label : String)
  | skippedApp (label : String)

/-- Spec-side dispatch for a single ledger entry: failed latest-version
lookup → skip under the current version; latest equal to current → skip
under the current version; otherwise download, and on a timestamp update
the ledger and record a download under the latest version, on absence skip
under the latest version. -/
def claimStep (cookies : Cookies) (net : Net) (now : String)
    (output apps_file : String) (fs : FS) (app : AppEntry) : Outcome × FS :=
  let name := pyGet app "name"
  let uid := pyGet app "uid"
  let current_version := pyGet app "version"
  let latest_version := get_latest_version cookies net uid
  if pyTruthy latest_version = false then
    (.skippedApp (appLabel name uid current_version), fs)
  else if pyBeq latest_version current_version = true then
    (.skippedApp (appLabel name uid current_version), fs)
  else
    match download_app cookies net now output fs name uid latest_version with
    | (some t, fs1) =>
      (.downloadedApp (appLabel name uid latest_version),
        (update_apps_file fs1 apps_file uid latest_version t).2)
    | (none, fs1) => (.skippedApp (appLabel name uid latest_version), fs1)

/-- Spec-side loop: dispatch each entry in ledger order, appending each
label to the downloaded or the skipped list so that both lists preserve the
ledger order. -/
def claimRun (cookies : Cookies) (net : Net) (now : String)
    (output apps_file : String) :
    List AppEntry → FS → List String × List String × FS
  | [], fs => ([], [], fs)
  | app :: rest, fs =>
    match claimStep cookies net now output apps_file fs app with
    | (.downloadedApp l, fs1) =>
      let (ds, ss, fs') := claimRun cookies net now output apps_file rest fs1
      (l :: ds, ss, fs')
    | (.skippedApp l, fs1) =>
      let (ds, ss, fs') := claimRun cookies net now output apps_file rest fs1
      (ds, l :: ss, fs')

theorem processApps_eq_claimRun (cookies : Cookies) (net : Net) (now : String)
    (output apps_file : String) :
    ∀ entries fs, processApps cookies net now output apps_file entries fs =
      claimRun cookies net now output apps_file entries fs := by
  intro entries
  induction entries with
  | nil => intro fs; rfl
  | cons app rest ih =>
    intro fs
    by_cases h1 : pyTruthy (get_latest_version cookies net (pyGet app "uid")) = false
    · simp [processApps, claimRun, claimStep, h1, ih]
    · have h1' : pyTruthy (get_latest_version cookies net (pyGet app "uid")) = true := by
        revert h1
        cases pyTruthy (get_latest_version cookies net (pyGet app "uid")) <;> simp
      by_cases h2 : pyBeq (get_latest_version cookies net (pyGet app "uid"))
          (pyGet app "version") = false
      · rcases hd : download_app cookies net now output fs (pyGet app "name")
            (pyGet app "uid") (get_latest_version cookies net (pyGet app "uid")) with
          ⟨_ | t, fs1⟩
        · simp [processApps, claimRun, claimStep, h1', h2, hd, ih]
        · simp [processApps, claimRun, claimStep, h1', h2, hd, ih]
      · have h2' : pyBeq (get_latest_version cookies net (pyGet app "uid"))
            (pyGet app "version") = true := by
          revert h2
          cases pyBeq (get_latest_version cookies net (pyGet app "uid"))
            (pyGet app "version") <;> simp
        simp [processApps, claimRun, claimStep, h1', h2', ih]

/-! ## Helper lemmas -/

theorem find_first_truthy (l : List PyVal) (j : Nat) (v : PyVal)
    (hj : l.get? j = some v) (hv : pyTruthy v = true)
    (hb : ∀ m, m < j → ∀ w, l.get? m = some w → pyTruthy w = false) :
    l.find? pyTruthy = some v := by
  induction l generalizing j with
  | nil => simp at hj
  | cons a tl ih =>
    cases j with
    | zero =>
      simp at hj
      subst hj
      simp [List.find?, hv]
    | succ n =>
      have ha : pyTruthy a = false := hb 0 (Nat.succ_pos n) a rfl
      simp [List.find?, ha]
      exact ih n (by simpa using hj)
        (fun m hm w hw => hb (m + 1) (Nat.succ_lt_succ hm) w (by simpa using hw))

theorem firstTruthy_truthy (l : List PyVal) (d : PyVal)
    (h : l.any pyTruthy = true) : pyTruthy (firstTruthy l d) = true := by
  unfold firstTruthy
  match hf : l.find? pyTruthy with
  | some v => exact List.find?_some hf
  | none =>
    rw [List.find?_eq_none] at hf
    rw [List.any_eq_true] at h
    obtain ⟨x, hx, hp⟩ := h
    exact absurd hp (by simp [hf x hx])

theorem firstTruthy_cons_falsy (a : PyVal) (l : List PyVal) (d : PyVal)
    (ha : pyTruthy a = false) : firstTruthy (a :: l) d = firstTruthy l d := by
  unfold firstTruthy
  rw [List.find?_cons_of_neg _ (by simp [ha])]

theorem recordConfig_effLookup (cd : List (String × PyVal)) (sect : Option String)
    (key : String) (v : PyVal) (cd' : List (String × PyVal))
    (h : recordConfig cd sect key v = some cd') :
    effLookup cd' sect key = some v := by
  cases sect with
  | none =>
    unfold recordConfig at h
    injection h with h
    subst h
    unfold effLookup
    exact assocSet_lookup_self _ _ _
  | some s =>
    cases hl : cd.lookup s with
    | none =>
      simp only [recordConfig, hl] at h
      injection h with h
      subst h
      simp only [effLookup, assocSet_lookup_self]
      simp [List.lookup]
    | some tv =>
      cases tv with
      | vdict m =>
        simp only [recordConfig, hl] at h
        injection h with h
        subst h
        simp only [effLookup, assocSet_lookup_self]
      | vnone =>
        simp only [recordConfig, hl] at h
        exact Option.noConfusion h
      | vstr s' =>
        simp only [recordConfig, hl] at h
        exact Option.noConfusion h
      | vint n =>
        simp only [recordConfig, hl] at h
        exact Option.noConfusion h

theorem findAndUpdate_no_match (uid nv : PyVal) (ut : String)
    (l : List AppEntry)
    (h : ∀ e ∈ l, ∃ w, e.lookup "uid" = some w ∧ pyBeq w uid = false) :
    findAndUpdate uid nv ut l = .ok none := by
  induction l with
  | nil => rfl
  | cons e rest ih =>
    obtain ⟨w, hw, hne⟩ := h e (by simp)
    simp [findAndUpdate, hw, hne, ih fun e' he' => h e' (by simp [he'])]

theorem findAndUpdate_hit (uid nv : PyVal) (ut : String)
    (pre post : List AppEntry) (e : AppEntry) (u : PyVal)
    (hpre : ∀ e' ∈ pre, ∃ w, e'.lookup "uid" = some w ∧ pyBeq w uid = false)
    (he : e.lookup "uid" = some u) (hu : pyBeq u uid = true) :
    findAndUpdate uid nv ut (pre ++ e :: post) =
      .ok (some (pre ++ updEntry e nv ut :: post)) := by
  induction pre with
  | nil => simp [findAndUpdate, he, hu]
  | cons e' rest ih =>
    obtain ⟨w, hw, hne⟩ := hpre e' (by simp)
    simp [findAndUpdate, hw, hne, ih fun x hx => hpre x (by simp [hx])]

theorem pathExists_makedirs (fs : FS) (o p : String)
    (h : pathExists fs p = true) : pathExists (makedirs fs o) p = true := by
  unfold pathExists at h ⊢
  unfold makedirs
  rcases Bool.or_eq_true_iff.mp h with h1 | h2
  · simp [h1]
  · simp only [Bool.or_eq_true]
    right
    simp only [List.contains_cons, Bool.or_eq_true, h2, or_true]

theorem unauth_ops (cookies : Cookies) (hc : cookiesTruthy cookies = false) :
    (∀ (net : Net) (uid : PyVal), get_latest_version cookies net uid = .vnone) ∧
    (∀ (net : Net) (now output : String) (fs : FS) (n i v : PyVal),
      download_app cookies net now output fs n i v = (none, fs)) ∧
    (∀ (net : Net) (now output apps_file : String) (fs : FS),
      check_and_update_apps cookies net now output apps_file fs = (([], []), fs)) := by
  refine ⟨?_, ?_, ?_⟩
  · intro net uid
    simp [get_latest_version, hc]
  · intro net now output fs n i v
    simp [download_app, hc]
  · intro net now output apps_file fs
    simp [check_and_update_apps, hc]

/-! ## Claim theorems -/

/-- C1: when a key resolves from several sources, `set_config` returns the
value of the highest-precedence source holding a non-empty (truthy) value,
with precedence CLI argument > YAML file > INI file > environment variable >
caller kwargs > default literal: if source `j` of the precedence list is
truthy and all sources before it are falsy, the resolved and recorded value
is source `j`'s. -/
theorem set_config_precedence (cm : ConfigurationManager) (args : String → PyVal)
    (env : String → Option String) (key : String) (sect : Option String)
    (env_key : Option String) (default y i kw v : PyVal)
    (cd : List (String × PyVal)) (j : Nat)
    (hy : fileGet cm.yaml_data sect key = .ok y)
    (hi : fileGet cm.ini_data sect key = .ok i)
    (hk : fileGet cm.kwargs sect key = .ok kw)
    (hj : (sourceValues args env key env_key y i kw).get? j = some v)
    (hv : pyTruthy v = true)
    (hb : ∀ m, m < j → ∀ w,
      (sourceValues args env key env_key y i kw).get? m = some w →
      pyTruthy w = false)
    (hrec : recordConfig cm.config_data sect key v = some cd) :
    set_config cm args env none key sect env_key default =
      .ok (v, { cm with config_data := cd }) := by
  have hres := resolveValue_eq_firstTruthy cm args env key sect env_key default
    y i kw hy hi hk
  have hft : firstTruthy (sourceValues args env key env_key y i kw) default = v := by
    unfold firstTruthy
    rw [find_first_truthy _ j v hj hv hb]
  rw [hft] at hres
  unfold set_config
  rw [hres]
  simp [hrec]

/-- Witness for C1: CLI argument absent, YAML and INI both define
`splunkbase.username`; the YAML value wins and is recorded. -/
theorem set_config_precedence_witness :
    set_config
      { yaml_data := [("splunkbase", .vdict [("username", .vstr "yamluser")])],
        ini_data := [("splunkbase", .vdict [("username", .vstr "iniuser")])],
        kwargs := [], config_data := [] }
      (fun _ => .vnone) (fun _ => none) none "username" (some "splunkbase")
      (some "SPLUNK_ASD_USERNAME") .vnone =
    .ok (.vstr "yamluser",
      { yaml_data := [("splunkbase", .vdict [("username", .vstr "yamluser")])],
        ini_data := [("splunkbase", .vdict [("username", .vstr "iniuser")])],
        kwargs := [],
        config_data := [("splunkbase", .vdict [("username", .vstr "yamluser")])] }) :=
  set_config_precedence
    { yaml_data := [("splunkbase", .vdict [("username", .vstr "yamluser")])],
      ini_data := [("splunkbase", .vdict [("username", .vstr "iniuser")])],
      kwargs := [], config_data := [] }
    (fun _ => .vnone) (fun _ => none) "username" (some "splunkbase")
    (some "SPLUNK_ASD_USERNAME") .vnone (.vstr "yamluser") (.vstr "iniuser")
    .vnone (.vstr "yamluser")
    [("splunkbase", .vdict [("username", .vstr "yamluser")])] 1
    rfl rfl rfl rfl rfl
    (by
      intro m hm w hw
      have hm0 : m = 0 := Nat.lt_one_iff.mp hm
      subst hm0
      cases hw
      rfl)
    rfl

/-- C3: a falsy value (such as an explicitly empty string) from the
highest-precedence CLI source is treated as not-found, and `set_config`
returns the first non-empty value of the remaining, lower-precedence
sources (which is non-empty whenever some lower source is). -/
theorem set_config_truthiness (cm : ConfigurationManager) (args : String → PyVal)
    (env : String → Option String) (key : String) (sect : Option String)
    (env_key : Option String) (default y i kw : PyVal)
    (cd : List (String × PyVal))
    (hcli : args (dotToHyphen key) = .vstr "")
    (hy : fileGet cm.yaml_data sect key = .ok y)
    (hi : fileGet cm.ini_data sect key = .ok i)
    (hk : fileGet cm.kwargs sect key = .ok kw)
    (hsome : ([y, i, envLookup env env_key key, kw].any pyTruthy) = true)
    (hrec : recordConfig cm.config_data sect key
        (firstTruthy [y, i, envLookup env env_key key, kw] default) = some cd) :
    set_config cm args env none key sect env_key default =
      .ok (firstTruthy [y, i, envLookup env env_key key, kw] default,
        { cm with config_data := cd }) ∧
    pyTruthy (firstTruthy [y, i, envLookup env env_key key, kw] default) = true := by
  have hres := resolveValue_eq_firstTruthy cm args env key sect env_key default
    y i kw hy hi hk
  have hdrop : firstTruthy (sourceValues args env key env_key y i kw) default =
      firstTruthy [y, i, envLookup env env_key key, kw] default := by
    unfold sourceValues
    exact firstTruthy_cons_falsy _ _ _ (by rw [hcli]; rfl)
  rw [hdrop] at hres
  refine ⟨?_, firstTruthy_truthy _ _ hsome⟩
  unfold set_config
  rw [hres]
  simp [hrec]

/-- Witness for C3: the CLI argument is the empty string, YAML/INI/kwargs
are silent, and the environment variable's value wins. -/
theorem set_config_truthiness_witness :
    set_config (ConfigurationManager.init []) (fun _ => .vstr "")
      (fun k => if k == "SPLUNK_ASD_PASSWORD" then some "envpass" else none)
      none "password" (some "splunkbase") (some "SPLUNK_ASD_PASSWORD") .vnone =
      .ok (.vstr "envpass",
        { ConfigurationManager.init [] with
            config_data := [("splunkbase", .vdict [("password", .vstr "envpass")])] }) ∧
    pyTruthy (.vstr "envpass") = true :=
  set_config_truthiness (ConfigurationManager.init []) (fun _ => .vstr "")
    (fun k => if k == "SPLUNK_ASD_PASSWORD" then some "envpass" else none)
    "password" (some "splunkbase") (some "SPLUNK_ASD_PASSWORD") .vnone
    .vnone .vnone .vnone
    [("splunkbase", .vdict [("password", .vstr "envpass")])]
    rfl rfl rfl rfl rfl rfl

/-- C4: with a declared choices set, a resolved value outside the set makes
`set_config` raise `ConfigurationManagerError` naming the key and the
offending value, while a member resolves successfully and is recorded in the
effective configuration under `[section][key]` (or `[key]` without a
section). -/
theorem set_config_choices (cm : ConfigurationManager) (args : String → PyVal)
    (env : String → Option String) (key : String) (sect : Option String)
    (env_key : Option String) (default v : PyVal) (cs : List PyVal)
    (hres : resolveValue cm args env key sect env_key default = .ok v) :
    (cs.any (fun c => pyBeq v c) = false →
      set_config cm args env (some cs) key sect env_key default =
        .error (.invalidValue v key cs)) ∧
    (∀ cd, cs.any (fun c => pyBeq v c) = true →
      recordConfig cm.config_data sect key v = some cd →
      set_config cm args env (some cs) key sect env_key default =
        .ok (v, { cm with config_data := cd }) ∧
      effLookup cd sect key = some v) := by
  constructor
  · intro hmem
    unfold set_config
    rw [hres]
    simp [hmem]
  · intro cd hmem hrec
    refine ⟨?_, recordConfig_effLookup _ _ _ _ _ hrec⟩
    unfold set_config
    rw [hres]
    simp [hmem, hrec]

/-- Witness for C4: choices `[http, https]`; resolving `ftp` fails with the
error naming key and value, resolving `https` succeeds and is recorded
under the plain key (no section). -/
theorem set_config_choices_witness :
    set_config (ConfigurationManager.init []) (fun _ => .vstr "ftp")
      (fun _ => none) (some [.vstr "http", .vstr "https"]) "protocol"
      none none .vnone =
      .error (.invalidValue (.vstr "ftp") "protocol" [.vstr "http", .vstr "https"]) ∧
    (set_config (ConfigurationManager.init []) (fun _ => .vstr "https")
      (fun _ => none) (some [.vstr "http", .vstr "https"]) "protocol"
      none none .vnone =
      .ok (.vstr "https",
        { ConfigurationManager.init [] with
            config_data := [("protocol", .vstr "https")] }) ∧
      effLookup [("protocol", .vstr "https")] none "protocol" =
        some (.vstr "https")) :=
  ⟨(set_config_choices (ConfigurationManager.init []) (fun _ => .vstr "ftp")
      (fun _ => none) "protocol" none none .vnone (.vstr "ftp")
      [.vstr "http", .vstr "https"] rfl).1 rfl,
   (set_config_choices (ConfigurationManager.init []) (fun _ => .vstr "https")
      (fun _ => none) "protocol" none none .vnone (.vstr "https")
      [.vstr "http", .vstr "https"] rfl).2
     [("protocol", .vstr "https")] rfl rfl⟩

/-- C5: `update_apps_file` rewrites exactly the first entry whose `uid`
matches — setting only its `version` and `updated_time` fields, leaving
every other entry and every other field unchanged — writes the sequence
back with 4-space indentation and returns success; with no matching entry
it returns failure and the filesystem is untouched. -/
theorem update_apps_file_frame (fs : FS) (apps_file : String)
    (uid nv : PyVal) (ut : String) :
    (∀ pre (e : AppEntry) post (u : PyVal),
      fsReadLedger fs apps_file = some (pre ++ e :: post) →
      (∀ e' ∈ pre, ∃ w, e'.lookup "uid" = some w ∧ pyBeq w uid = false) →
      e.lookup "uid" = some u → pyBeq u uid = true →
      update_apps_file fs apps_file uid nv ut =
        (true, fsWrite fs apps_file (.json (pre ++ updEntry e nv ut :: post) (some 4))) ∧
      (updEntry e nv ut).lookup "version" = some nv ∧
      (updEntry e nv ut).lookup "updated_time" = some (.vstr ut) ∧
      (∀ k, k ≠ "version" → k ≠ "updated_time" →
        (updEntry e nv ut).lookup k = e.lookup k)) ∧
    (∀ entries,
      fsReadLedger fs apps_file = some entries →
      (∀ e' ∈ entries, ∃ w, e'.lookup "uid" = some w ∧ pyBeq w uid = false) →
      update_apps_file fs apps_file uid nv ut = (false, fs)) := by
  constructor
  · intro pre e post u hread hpre he hu
    refine ⟨?_, ?_, ?_, ?_⟩
    · simp only [update_apps_file, hread,
        findAndUpdate_hit uid nv ut pre post e u hpre he hu]
    · unfold updEntry
      rw [assocSet_lookup_other _ _ _ _ (by decide)]
      exact assocSet_lookup_self _ _ _
    · unfold updEntry
      exact assocSet_lookup_self _ _ _
    · intro k hk1 hk2
      unfold updEntry
      rw [assocSet_lookup_other _ _ _ _ hk2, assocSet_lookup_other _ _ _ _ hk1]
  · intro entries hread hall
    simp only [update_apps_file, hread,
      findAndUpdate_no_match uid nv ut entries hall]

/-- Witness for C5: a three-entry ledger; updating `uid2` rewrites only the
middle entry (new version and timestamp, `name` untouched) with indent 4;
updating an absent `uidZ` returns failure and leaves the filesystem as it
was. -/
theorem update_apps_file_frame_witness :
    update_apps_file
      { files := [("apps.json",
          .json [[("name", .vstr "app1"), ("uid", .vstr "uid1"), ("version", .vstr "v1")],
                 [("name", .vstr "app2"), ("uid", .vstr "uid2"), ("version", .vstr "v1")],
                 [("name", .vstr "app3"), ("uid", .vstr "uid3"), ("version", .vstr "v3")]]
            none)], dirs := [] }
      "apps.json" (.vstr "uid2") (.vstr "v2") "2024-01-01T00:00:00Z" =
      (true,
       { files := [("apps.json",
           .json [[("name", .vstr "app1"), ("uid", .vstr "uid1"), ("version", .vstr "v1")],
                  [("name", .vstr "app2"), ("uid", .vstr "uid2"), ("version", .vstr "v2"),
                   ("updated_time", .vstr "2024-01-01T00:00:00Z")],
                  [("name", .vstr "app3"), ("uid", .vstr "uid3"), ("version", .vstr "v3")]]
             (some 4))], dirs := [] }) ∧
    update_apps_file
      { files := [("apps.json",
          .json [[("name", .vstr "app1"), ("uid", .vstr "uid1"), ("version", .vstr "v1")]]
            none)], dirs := [] }
      "apps.json" (.vstr "uidZ") (.vstr "v2") "2024-01-01T00:00:00Z" =
      (false,
       { files := [("apps.json",
           .json [[("name", .vstr "app1"), ("uid", .vstr "uid1"), ("version", .vstr "v1")]]
             none)], dirs := [] }) := by
  constructor
  · have h := (update_apps_file_frame
      { files := [("apps.json",
          .json [[("name", .vstr "app1"), ("uid", .vstr "uid1"), ("version", .vstr "v1")],
                 [("name", .vstr "app2"), ("uid", .vstr "uid2"), ("version", .vstr "v1")],
                 [("name", .vstr "app3"), ("uid", .vstr "uid3"), ("version", .vstr "v3")]]
            none)], dirs := [] }
      "apps.json" (.vstr "uid2") (.vstr "v2") "2024-01-01T00:00:00Z").1
      [[("name", .vstr "app1"), ("uid", .vstr "uid1"), ("version", .vstr "v1")]]
      [("name", .vstr "app2"), ("uid", .vstr "uid2"), ("version", .vstr "v1")]
      [[("name", .vstr "app3"), ("uid", .vstr "uid3"), ("version", .vstr "v3")]]
      (.vstr "uid2") rfl
      (by
        intro e' he'
        simp only [List.mem_singleton] at he'
        subst he'
        exact ⟨.vstr "uid1", rfl, rfl⟩)
      rfl rfl
    exact h.1.trans (by rfl)
  · exact (update_apps_file_frame
      { files := [("apps.json",
          .json [[("name", .vstr "app1"), ("uid", .vstr "uid1"), ("version", .vstr "v1")]]
            none)], dirs := [] }
      "apps.json" (.vstr "uidZ") (.vstr "v2") "2024-01-01T00:00:00Z").2
      [[("name", .vstr "app1"), ("uid", .vstr "uid1"), ("version", .vstr "v1")]]
      rfl
      (by
        intro e' he'
        simp only [List.mem_singleton] at he'
        subst he'
        exact ⟨.vstr "uid1", rfl, rfl⟩)

/-- C6: when the target `{name}_{id}_{version}.tgz` already exists in the
output directory, `download_app` returns `none` without touching any file
and independently of the network; a second identical call again returns
`none`, and the files on disk — in particular the target's bytes — are the
same as before the first call. -/
theorem download_app_idempotent (cookies : Cookies) (net : Net) (now : String)
    (output : String) (fs : FS) (n i v : PyVal)
    (hc : cookiesTruthy cookies = true)
    (hex : pathExists fs (pathJoin output (tgzName n i v)) = true) :
    (download_app cookies net now output fs n i v).1 = none ∧
    (download_app cookies net now output fs n i v).2.files = fs.files ∧
    (∀ net' : Net, download_app cookies net' now output fs n i v =
      download_app cookies net now output fs n i v) ∧
    (download_app cookies net now output
        (download_app cookies net now output fs n i v).2 n i v).1 = none ∧
    (download_app cookies net now output
        (download_app cookies net now output fs n i v).2 n i v).2.files.lookup
        (pathJoin output (tgzName n i v)) =
      fs.files.lookup (pathJoin output (tgzName n i v)) := by
  by_cases ho : pathExists fs output = true
  · have h1 : download_app cookies net now output fs n i v = (none, fs) := by
      unfold download_app
      simp [hc, ho, hex]
    refine ⟨by rw [h1], by rw [h1], ?_, ?_, ?_⟩
    · intro net'
      rw [h1]
      unfold download_app
      simp [hc, ho, hex]
    · rw [h1, h1]
    · rw [h1, h1]
  · have ho' : pathExists fs output = false := by
      revert ho; cases pathExists fs output <;> simp
    have hex1 : pathExists (makedirs fs output) (pathJoin output (tgzName n i v)) = true :=
      pathExists_makedirs fs output _ hex
    have h1 : download_app cookies net now output fs n i v =
        (none, makedirs fs output) := by
      unfold download_app
      simp [hc, ho', hex1]
    have ho2 : pathExists (makedirs fs output) output = true := by
      unfold pathExists makedirs
      simp [List.contains_cons]
    have h2 : download_app cookies net now output (makedirs fs output) n i v =
        (none, makedirs fs output) := by
      unfold download_app
      simp [hc, ho2, hex1]
    refine ⟨by rw [h1], by rw [h1]; rfl, ?_, ?_, ?_⟩
    · intro net'
      rw [h1]
      unfold download_app
      simp [hc, ho', hex1]
    · rw [h1, h2]
    · rw [h1, h2]
      rfl

/-- Witness for C6: `out/app_1_2.0.tgz` already on disk; two successive
calls (against a network that would happily serve the download) both return
`none` and the stored bytes are untouched. -/
theorem download_app_idempotent_witness :
    (download_app (some [("sid", "x")])
      { getVersion := fun _ => none,
        getDownload := fun _ => some ⟨200, "NEWBYTES", none⟩ }
      "NOW" "out"
      { files := [("out/app_1_2.0.tgz", .blob "OLDBYTES")], dirs := ["out"] }
      (.vstr "app") (.vstr "1") (.vstr "2.0")).1 = none ∧
    (download_app (some [("sid", "x")])
      { getVersion := fun _ => none,
        getDownload := fun _ => some ⟨200, "NEWBYTES", none⟩ }
      "NOW" "out"
      (download_app (some [("sid", "x")])
        { getVersion := fun _ => none,
          getDownload := fun _ => some ⟨200, "NEWBYTES", none⟩ }
        "NOW" "out"
        { files := [("out/app_1_2.0.tgz", .blob "OLDBYTES")], dirs := ["out"] }
        (.vstr "app") (.vstr "1") (.vstr "2.0")).2
      (.vstr "app") (.vstr "1") (.vstr "2.0")).2.files.lookup
      (pathJoin "out" (tgzName (.vstr "app") (.vstr "1") (.vstr "2.0"))) =
      some (.blob "OLDBYTES") := by
  have h := download_app_idempotent (some [("sid", "x")])
    { getVersion := fun _ => none,
      getDownload := fun _ => some ⟨200, "NEWBYTES", none⟩ }
    "NOW" "out"
    { files := [("out/app_1_2.0.tgz", .blob "OLDBYTES")], dirs := ["out"] }
    (.vstr "app") (.vstr "1") (.vstr "2.0") rfl (by rfl)
  exact ⟨h.1, h.2.2.2.2.trans (by rfl)⟩

/-- C7: when the ledger file is missing or malformed, `check_and_update_apps`
returns two empty lists and the filesystem — in particular the ledger file —
is exactly as before. -/
theorem check_and_update_apps_bad_ledger (cookies : Cookies) (net : Net)
    (now output apps_file : String) (fs : FS)
    (hr : fsReadLedger fs apps_file = none) :
    check_and_update_apps cookies net now output apps_file fs = (([], []), fs) := by
  unfold check_and_update_apps
  by_cases hc : cookiesTruthy cookies = false
  · simp [hc]
  · have hc' : cookiesTruthy cookies = true := by
      revert hc; cases cookiesTruthy cookies <;> simp
    simp [hc', hr]

/-- Witness for C7: an authenticated client over a ledger file holding
malformed JSON gets two empty lists and an unchanged filesystem. -/
theorem check_and_update_apps_bad_ledger_witness :
    check_and_update_apps (some [("sid", "x")])
      { getVersion := fun _ => some ⟨200, [.vdict [("name", .vstr "9.9")]]⟩,
        getDownload := fun _ => some ⟨200, "BYTES", none⟩ }
      "NOW" "out" "apps.json"
      { files := [("apps.json", .malformed "not json")], dirs := [] } =
      (([], []),
       { files := [("apps.json", .malformed "not json")], dirs := [] }) :=
  check_and_update_apps_bad_ledger (some [("sid", "x")])
    { getVersion := fun _ => some ⟨200, [.vdict [("name", .vstr "9.9")]]⟩,
      getDownload := fun _ => some ⟨200, "BYTES", none⟩ }
    "NOW" "out" "apps.json"
    { files := [("apps.json", .malformed "not json")], dirs := [] } rfl

/-- C8: while unauthenticated (no captured session cookies),
`get_latest_version` and `download_app` return `None` and
`check_and_update_apps` returns two empty lists — for every possible network
(so no remote request can influence the result) and with the filesystem,
ledger included, unchanged. -/
theorem unauthenticated_noop (cookies : Cookies)
    (hc : cookiesTruthy cookies = false) :
    (∀ (net : Net) (uid : PyVal), get_latest_version cookies net uid = .vnone) ∧
    (∀ (net : Net) (now output : String) (fs : FS) (n i v : PyVal),
      download_app cookies net now output fs n i v = (none, fs)) ∧
    (∀ (net : Net) (now output apps_file : String) (fs : FS),
      check_and_update_apps cookies net now output apps_file fs = (([], []), fs)) :=
  unauth_ops cookies hc

/-- Witness for C8: a never-authenticated client (`cookies = None`) over a
perfectly readable ledger: all three operations no-op. -/
theorem unauthenticated_noop_witness :
    get_latest_version none
      { getVersion := fun _ => some ⟨200, [.vdict [("name", .vstr "9.9")]]⟩,
        getDownload := fun _ => some ⟨200, "BYTES", none⟩ }
      (.vstr "uid1") = .vnone ∧
    download_app none
      { getVersion := fun _ => some ⟨200, [.vdict [("name", .vstr "9.9")]]⟩,
        getDownload := fun _ => some ⟨200, "BYTES", none⟩ }
      "NOW" "out"
      { files := [("apps.json",
          .json [[("uid", .vstr "uid1"), ("version", .vstr "v1")]] none)],
        dirs := [] }
      (.vstr "app") (.vstr "1") (.vstr "2.0") =
      (none,
       { files := [("apps.json",
           .json [[("uid", .vstr "uid1"), ("version", .vstr "v1")]] none)],
         dirs := [] }) ∧
    check_and_update_apps none
      { getVersion := fun _ => some ⟨200, [.vdict [("name", .vstr "9.9")]]⟩,
        getDownload := fun _ => some ⟨200, "BYTES", none⟩ }
      "NOW" "out" "apps.json"
      { files := [("apps.json",
          .json [[("uid", .vstr "uid1"), ("version", .vstr "v1")]] none)],
        dirs := [] } =
      (([], []),
       { files := [("apps.json",
           .json [[("uid", .vstr "uid1"), ("version", .vstr "v1")]] none)],
         dirs := [] }) :=
  ⟨(unauthenticated_noop none rfl).1 _ _,
   (unauthenticated_noop none rfl).2.1 _ _ _ _ _ _ _,
   (unauthenticated_noop none rfl).2.2 _ _ _ _ _⟩

/-- C2: for a successfully read ledger, `check_and_update_apps` processes
the entries in file order and dispatches each exactly as the specification's
four cases describe (`claimRun`/`claimStep`, written from the spec): failed
latest lookup → current-version label skipped; latest equal → current-version
label skipped; latest differs and download yields a timestamp → ledger
updated and latest-version label downloaded; latest differs and download
absent → latest-version label skipped; both lists preserve ledger order. -/
theorem check_and_update_apps_dispatch (cookies : Cookies) (net : Net)
    (now output apps_file : String) (fs : FS) (entries : List AppEntry)
    (hc : cookiesTruthy cookies = true)
    (hr : fsReadLedger fs apps_file = some entries) :
    check_and_update_apps cookies net now output apps_file fs =
      (((claimRun cookies net now output apps_file entries fs).1,
        (claimRun cookies net now output apps_file entries fs).2.1),
       (claimRun cookies net now output apps_file entries fs).2.2) := by
  rcases hcr : claimRun cookies net now output apps_file entries fs with ⟨ds, ss, fs'⟩
  unfold check_and_update_apps
  simp only [hc, hr]
  rw [processApps_eq_claimRun, hcr]
  simp

/-- Witness for C2: a three-entry ledger where entry 1 is up to date, entry
2 has a newer release whose download succeeds, and entry 3's version lookup
fails: downloaded `["app2_uid2_v2"]`, skipped
`["app1_uid1_v1", "app3_uid3_v1"]` in ledger order, the archive written, and
only entry 2 rewritten in the ledger (with indent 4). -/
theorem check_and_update_apps_dispatch_witness :
    check_and_update_apps (some [("sid", "x")])
      { getVersion := fun url =>
          if url == versionUrl (.vstr "uid1") then
            some ⟨200, [.vdict [("name", .vstr "v1")]]⟩
          else if url == versionUrl (.vstr "uid2") then
            some ⟨200, [.vdict [("name", .vstr "v2")]]⟩
          else none,
        getDownload := fun _ => some ⟨200, "BYTES", some "LM"⟩ }
      "NOW" "out" "apps.json"
      { files := [("apps.json",
          .json [[("name", .vstr "app1"), ("uid", .vstr "uid1"), ("version", .vstr "v1")],
                 [("name", .vstr "app2"), ("uid", .vstr "uid2"), ("version", .vstr "v1")],
                 [("name", .vstr "app3"), ("uid", .vstr "uid3"), ("version", .vstr "v1")]]
            (some 4))],
        dirs := ["out"] } =
      ((["app2_uid2_v2"], ["app1_uid1_v1", "app3_uid3_v1"]),
       { files := [("apps.json",
           .json [[("name", .vstr "app1"), ("uid", .vstr "uid1"), ("version", .vstr "v1")],
                  [("name", .vstr "app2"), ("uid", .vstr "uid2"), ("version", .vstr "v2"),
                   ("updated_time", .vstr "LM")],
                  [("name", .vstr "app3"), ("uid", .vstr "uid3"), ("version", .vstr "v1")]]
             (some 4)),
          ("out/app2_uid2_v2.tgz", .blob "BYTES")],
         dirs := ["out"] }) := by
  have h := check_and_update_apps_dispatch (some [("sid", "x")])
    { getVersion := fun url =>
        if url == versionUrl (.vstr "uid1") then
          some ⟨200, [.vdict [("name", .vstr "v1")]]⟩
        else if url == versionUrl (.vstr "uid2") then
          some ⟨200, [.vdict [("name", .vstr "v2")]]⟩
        else none,
      getDownload := fun _ => some ⟨200, "BYTES", some "LM"⟩ }
    "NOW" "out" "apps.json"
    { files := [("apps.json",
        .json [[("name", .vstr "app1"), ("uid", .vstr "uid1"), ("version", .vstr "v1")],
               [("name", .vstr "app2"), ("uid", .vstr "uid2"), ("version", .vstr "v1")],
               [("name", .vstr "app3"), ("uid", .vstr "uid3"), ("version", .vstr "v1")]]
          (some 4))],
      dirs := ["out"] }
    [[("name", .vstr "app1"), ("uid", .vstr "uid1"), ("version", .vstr "v1")],
     [("name", .vstr "app2"), ("uid", .vstr "uid2"), ("version", .vstr "v1")],
     [("name", .vstr "app3"), ("uid", .vstr "uid3"), ("version", .vstr "v1")]]
    rfl rfl
  exact h.trans (by rfl)

/-- C9 counterexample: a missing configuration file with a `.conf` extension
surfaces NO warning — `configparser.read` silently ignores missing files, so
the "not found" message (which the claim asserts for both recognized
extension families) is never printed on the INI path. -/
theorem load_config_file_missing_conf_no_warning :
    pathExists { files := [], dirs := [] } "settings.conf" = false ∧
    load_config_file (ConfigurationManager.init []) { files := [], dirs := [] }
        (some "settings.conf") =
      ({ ConfigurationManager.init [] with ini_data := [] }, []) :=
  ⟨rfl, rfl⟩

/-- C9 (amended): a missing configuration file is non-fatal for both
recognized extension families and both file sources stay empty, but the
warning is surfaced only on the `.yaml`/`.yml` path; on the `.conf`/`.ini`
path the missing file is silently ignored (the INI source becomes the empty
dict, no warning). -/
theorem load_config_file_missing_nonfatal (cm : ConfigurationManager) (fs : FS)
    (p : String) (hmiss : fs.files.lookup p = none) (hp : (p == "") = false) :
    ((strEndsWith p ".conf" || strEndsWith p ".ini") = true →
      load_config_file cm fs (some p) = ({ cm with ini_data := [] }, [])) ∧
    ((strEndsWith p ".conf" || strEndsWith p ".ini") = false →
      (strEndsWith p ".yaml" || strEndsWith p ".yml") = true →
      load_config_file cm fs (some p) =
        (cm, ["Configuration file " ++ p ++ " not found. Continuing without it."])) := by
  constructor
  · intro hext
    unfold load_config_file
    simp [hp, hext, hmiss]
  · intro hext1 hext2
    unfold load_config_file
    simp [hp, hext1, hext2, hmiss]

/-- Witness for the amended C9: a missing `a.conf` loads silently with an
empty INI source; a missing `a.yaml` keeps the manager unchanged and prints
the warning. -/
theorem load_config_file_missing_nonfatal_witness :
    load_config_file (ConfigurationManager.init []) { files := [], dirs := [] }
        (some "a.conf") = ({ ConfigurationManager.init [] with ini_data := [] }, []) ∧
    load_config_file (ConfigurationManager.init []) { files := [], dirs := [] }
        (some "a.yaml") =
      (ConfigurationManager.init [],
       ["Configuration file a.yaml not found. Continuing without it."]) :=
  ⟨(load_config_file_missing_nonfatal (ConfigurationManager.init [])
      { files := [], dirs := [] } "a.conf" rfl rfl).1 rfl,
   (load_config_file_missing_nonfatal (ConfigurationManager.init [])
      { files := [], dirs := [] } "a.yaml" rfl rfl).2 rfl rfl⟩

/-- C10: an HTTP-200 login whose response carries no cookies leaves the
session state as the empty cookie dict, which the `if not self.cookies`
check still treats as unauthenticated: `authenticate` reports success, yet
every catalog operation returns its no-result value — the authenticated
check tests non-emptiness of the cookie set, not whether `authenticate`
completed. -/
theorem authenticate_empty_cookies (r : LoginResponse)
    (h200 : r.status = 200) (hempty : r.cookies = []) :
    authenticate (some r) = .ok [] ∧
    cookiesTruthy (some []) = false ∧
    (∀ (net : Net) (uid : PyVal), get_latest_version (some []) net uid = .vnone) ∧
    (∀ (net : Net) (now output : String) (fs : FS) (n i v : PyVal),
      download_app (some []) net now output fs n i v = (none, fs)) ∧
    (∀ (net : Net) (now output apps_file : String) (fs : FS),
      check_and_update_apps (some []) net now output apps_file fs = (([], []), fs)) := by
  have h := unauth_ops (some []) rfl
  refine ⟨?_, rfl, h.1, h.2.1, h.2.2⟩
  unfold authenticate
  simp [h200, hempty]

/-- Witness for C10: a literal 200-with-no-cookies login, then all three
catalog operations against a live-looking network and a readable ledger
still no-op. -/
theorem authenticate_empty_cookies_witness :
    authenticate (some ⟨200, []⟩) = .ok [] ∧
    get_latest_version (some [])
      { getVersion := fun _ => some ⟨200, [.vdict [("name", .vstr "9.9")]]⟩,
        getDownload := fun _ => some ⟨200, "BYTES", none⟩ }
      (.vstr "uid1") = .vnone ∧
    download_app (some [])
      { getVersion := fun _ => some ⟨200, [.vdict [("name", .vstr "9.9")]]⟩,
        getDownload := fun _ => some ⟨200, "BYTES", none⟩ }
      "NOW" "out"
      { files := [("apps.json",
          .json [[("uid", .vstr "uid1"), ("version", .vstr "v1")]] none)],
        dirs := [] }
      (.vstr "app") (.vstr "1") (.vstr "2.0") =
      (none,
       { files := [("apps.json",
           .json [[("uid", .vstr "uid1"), ("version", .vstr "v1")]] none)],
         dirs := [] }) ∧
    check_and_update_apps (some [])
      { getVersion := fun _ => some ⟨200, [.vdict [("name", .vstr "9.9")]]⟩,
        getDownload := fun _ => some ⟨200, "BYTES", none⟩ }
      "NOW" "out" "apps.json"
      { files := [("apps.json",
          .json [[("uid", .vstr "uid1"), ("version", .vstr "v1")]] none)],
        dirs := [] } =
      (([], []),
       { files := [("apps.json",
           .json [[("uid", .vstr "uid1"), ("version", .vstr "v1")]] none)],
         dirs := [] }) :=
  ⟨(authenticate_empty_cookies ⟨200, []⟩ rfl rfl).1,
   (authenticate_empty_cookies ⟨200, []⟩ rfl rfl).2.2.1 _ _,
   (authenticate_empty_cookies ⟨200, []⟩ rfl rfl).2.2.2.1 _ _ _ _ _ _ _,
   (authenticate_empty_cookies ⟨200, []⟩ rfl rfl).2.2.2.2 _ _ _ _ _⟩

end SplunkbaseDL
